import Mathlib

/-!
Verification development for the multi-carrier shipping rate calculator.

The definitions below are a shallow embedding of the TypeScript sources:
`src/services/rate-service.ts` (aggregation orchestrator),
`src/services/fee-decorators/*` (fee composition engine), and the FedEx
carrier adapter (`FedExAdapter.ts` with its type declarations).

Conventions of the embedding:
- JS `number` is modelled as `ℚ` (the monetary and weight arithmetic of the
  source is exact decimal arithmetic at the precision exercised here).
- JS `Date` values are modelled as integers (epoch milliseconds / day counts).
- A thrown JS `Error` is modelled as `Except Err` with `Err` carrying the
  message string; rejected promises are `Except.error` values.
- Network behaviour of an adapter is a parameter: a function from the
  invocation index to the settled result of that `fetchRates` call.
-/

/-! ## String helpers: JS `toLowerCase` and `includes` -/

/-- ASCII lower-casing of one character, as JS `toLowerCase` acts on the
ASCII error messages matched by the recoverability classifier. -/
def lowerChar (c : Char) : Char :=
  if 'A' ≤ c ∧ c ≤ 'Z' then Char.ofNat (c.toNat + 32) else c

/-- Character list of a string, lower-cased. -/
def lowerStr (s : String) : List Char :=
  s.toList.map lowerChar

/-- Whether the first list is a prefix of the second (Boolean, by `==`). -/
def startsWithList : List Char → List Char → Bool
  | [], _ => true
  | _ :: _, [] => false
  | a :: as, b :: bs => a == b && startsWithList as bs

/-- JS `String.prototype.includes`: the needle occurs somewhere in the hay. -/
def containsList (needle : List Char) : List Char → Bool
  | [] => needle.isEmpty
  | b :: bs => startsWithList needle (b :: bs) || containsList needle bs

/-- `hay.includes needle` on a pre-exploded hay. -/
def strIncludes (hay : List Char) (needle : String) : Bool :=
  containsList needle.toList hay

/-! ## Canonical domain model (`src/types/domain.ts`) -/

/-- Canonical speed tiers. The adapter and UI additionally use the request
value `all` (no speed filtering), so it is part of the enumeration. -/
inductive ServiceSpeed
  | all
  | overnight
  | twoDay
  | standard
  | economy
deriving DecidableEq

/-- A fee line item: kind, amount, human-readable description. -/
structure Fee where
  type : String
  amount : ℚ
  description : String
deriving DecidableEq

/-- Canonical quote produced by an adapter. -/
structure ShippingRate where
  id : String
  carrier : String
  serviceCode : String
  serviceName : String
  speed : ServiceSpeed
  features : List String
  baseRate : ℚ
  additionalFees : List Fee
  totalCost : ℚ
  estimatedDeliveryDate : ℤ
  guaranteedDelivery : Bool
deriving DecidableEq

structure CarrierError where
  carrier : String
  message : String
  recoverable : Bool
deriving DecidableEq

structure RateResponse where
  requestId : String
  rates : List ShippingRate
  errors : List CarrierError
  timestamp : ℤ
deriving DecidableEq

inductive WeightUnit
  | lbs
  | kg
deriving DecidableEq

/-- Dimension units (`in` is a Lean keyword, rendered `inch`). -/
inductive DimUnit
  | inch
  | cm
deriving DecidableEq

inductive PackageType
  | envelope
  | box
  | tube
  | custom
deriving DecidableEq

structure PackageDimensions where
  length : ℚ
  width : ℚ
  height : ℚ
  unit : DimUnit
deriving DecidableEq

structure PackageWeight where
  value : ℚ
  unit : WeightUnit
deriving DecidableEq

structure Package where
  id : String
  dimensions : PackageDimensions
  weight : PackageWeight
  type : PackageType
  declaredValue : Option ℚ
deriving DecidableEq

structure Address where
  name : String
  street1 : String
  city : String
  state : String
  postalCode : String
  country : String
  street2 : Option String
  phone : Option String
deriving DecidableEq

structure ShippingOptions where
  speed : ServiceSpeed
  signatureRequired : Bool
  insurance : Bool
  fragileHandling : Bool
  saturdayDelivery : Bool
  insuredValue : Option ℚ
deriving DecidableEq

/-- Carrier identifiers are plain strings in the source
(`carrierNames` is not a const-asserted tuple). -/
abbrev CarrierName := String

structure RateRequest where
  package : Package
  origin : Address
  destination : Address
  options : ShippingOptions
  carriersFilter : Option (List CarrierName)
deriving DecidableEq

/-- A thrown JS `Error`, reduced to its message. -/
structure Err where
  message : String
deriving DecidableEq

/-! ## Currency rounding -/

/-- `roundToTwoDecimals` / `Math.round(num * 100) / 100`.  JS `Math.round`
is `⌊x + 1/2⌋`, which is Mathlib's `round` on `ℚ`. -/
def round2 (q : ℚ) : ℚ :=
  ((round (q * 100) : ℤ) : ℚ) / 100

/-! ## Fee Composition Engine (`src/services/fee-decorators/`)

The source decorators are wrapper objects exposing `getCost`, `getFees`,
`getDescription`; each decorator adds its fee to the wrapped cost and appends
exactly one `Fee` entry.  A decorated component is fully described by those
three observations, so it is embedded as a record and each decorator as a
function on records. -/

structure RateComponent where
  cost : ℚ
  description : String
  fees : List Fee
deriving DecidableEq

/-- `new BaseRate(baseAmount, serviceName)`. -/
def BaseRate (baseAmount : ℚ) (serviceName : String) : RateComponent :=
  { cost := baseAmount, description := serviceName, fees := [] }

def SIGNATURE_FEE : ℚ := 5.5

def FRAGILE_HANDLING_FEE : ℚ := 10.0

def SATURDAY_DELIVERY_FEE : ℚ := 15.0

def SignatureDecorator (c : RateComponent) : RateComponent :=
  { cost := c.cost + SIGNATURE_FEE
    description := c.description ++ " + Signature Required"
    fees := c.fees ++ [⟨"signature", SIGNATURE_FEE, "Signature Required"⟩] }

def FragileHandlingDecorator (c : RateComponent) : RateComponent :=
  { cost := c.cost + FRAGILE_HANDLING_FEE
    description := c.description ++ " + Fragile Handling"
    fees := c.fees ++ [⟨"fragilehandling", FRAGILE_HANDLING_FEE, "Fragile Handling"⟩] }

def SaturdayDeliveryDecorator (c : RateComponent) : RateComponent :=
  { cost := c.cost + SATURDAY_DELIVERY_FEE
    description := c.description ++ " + Saturday Delivery"
    fees := c.fees ++ [⟨"saturdaydelivery", SATURDAY_DELIVERY_FEE, "Saturday Delivery"⟩] }

/-- `InsuranceDecorator.calculateInsuranceFee`: $1 per $100 of value,
minimum $2.50, rounded to two decimals. -/
def calculateInsuranceFee (insuredValue : ℚ) : ℚ :=
  round2 (max (insuredValue / 100 * 1) 2.5)

def InsuranceDecorator (c : RateComponent) (insuredValue : ℚ) : RateComponent :=
  { cost := c.cost + calculateInsuranceFee insuredValue
    description := c.description ++ " + Insurance"
    fees := c.fees ++
      [⟨"insurance", calculateInsuranceFee insuredValue,
        "Insurance: $" ++ toString insuredValue⟩] }

/-- `applyFees(baseRate, options)`: stacks the decorators in source order.
JS truthiness of `options.insuredValue` means the insurance decorator is
skipped when the value is absent or zero. -/
def applyFees (baseRate : RateComponent) (options : ShippingOptions) : RateComponent :=
  let d1 := if options.signatureRequired then SignatureDecorator baseRate else baseRate
  let d2 := match options.insuredValue with
    | some v => if options.insurance ∧ v ≠ 0 then InsuranceDecorator d1 v else d1
    | none => d1
  let d3 := if options.fragileHandling then FragileHandlingDecorator d2 else d2
  if options.saturdayDelivery then SaturdayDeliveryDecorator d3 else d3

/-! Abstraction of a single applicable fee modifier, for stating
order-independence of the decorator stack. -/

inductive FeeModifier
  | signature
  | insurance (insuredValue : ℚ)
  | fragile
  | saturday
deriving DecidableEq

def applyModifier (c : RateComponent) : FeeModifier → RateComponent
  | FeeModifier.signature => SignatureDecorator c
  | FeeModifier.insurance v => InsuranceDecorator c v
  | FeeModifier.fragile => FragileHandlingDecorator c
  | FeeModifier.saturday => SaturdayDeliveryDecorator c

def modifierFee : FeeModifier → ℚ
  | FeeModifier.signature => SIGNATURE_FEE
  | FeeModifier.insurance v => calculateInsuranceFee v
  | FeeModifier.fragile => FRAGILE_HANDLING_FEE
  | FeeModifier.saturday => SATURDAY_DELIVERY_FEE

def modifierFeeEntry : FeeModifier → Fee
  | FeeModifier.signature => ⟨"signature", SIGNATURE_FEE, "Signature Required"⟩
  | FeeModifier.insurance v =>
      ⟨"insurance", calculateInsuranceFee v, "Insurance: $" ++ toString v⟩
  | FeeModifier.fragile => ⟨"fragilehandling", FRAGILE_HANDLING_FEE, "Fragile Handling"⟩
  | FeeModifier.saturday => ⟨"saturdaydelivery", SATURDAY_DELIVERY_FEE, "Saturday Delivery"⟩

def modifierLabel : FeeModifier → String
  | FeeModifier.signature => " + Signature Required"
  | FeeModifier.insurance _ => " + Insurance"
  | FeeModifier.fragile => " + Fragile Handling"
  | FeeModifier.saturday => " + Saturday Delivery"

/-- Stacking an arbitrary list of modifiers over a base component. -/
def applyModifiers (c : RateComponent) (ms : List FeeModifier) : RateComponent :=
  ms.foldl applyModifier c

/-- The modifiers `applyFees` selects from the options, in source order. -/
def applicableModifiers (options : ShippingOptions) : List FeeModifier :=
  (if options.signatureRequired then [FeeModifier.signature] else []) ++
  (match options.insuredValue with
   | some v => if options.insurance ∧ v ≠ 0 then [FeeModifier.insurance v] else []
   | none => []) ++
  (if options.fragileHandling then [FeeModifier.fragile] else []) ++
  (if options.saturdayDelivery then [FeeModifier.saturday] else [])

/-! ## Aggregation Orchestrator (`src/services/rate-service.ts`)

`RateService` depends on the registry function `getCarrierAdapter` and on the
network; both are abstracted into an `AdapterRegistry`: `none` for an
unregistered carrier id (the registry throws `Unknown carrier: <id>`), or the
settled result of each successive `fetchRates` invocation for this request.
`FetchTrace` additionally records the ghost observables needed by the claims:
how many adapter invocations happened and which backoff delays (ms) were
awaited. -/

abbrev AdapterBehavior := Nat → Except Err (List ShippingRate)

abbrev AdapterRegistry := CarrierName → Option AdapterBehavior

def unknownCarrierError (c : CarrierName) : Err :=
  ⟨"Unknown carrier: " ++ c⟩

/-- One `getCarrierAdapter(carrier)` + `adapter.fetchRates(request)` step:
the registry lookup throws for unknown ids, otherwise the `k`-th invocation
of the adapter settles as `b k`. -/
def getCarrierAdapterResult (adapters : AdapterRegistry) (c : CarrierName)
    (k : Nat) : Except Err (List ShippingRate) :=
  match adapters c with
  | none => Except.error (unknownCarrierError c)
  | some b => b k

/-- `isRecoverableError`: substring match on the lower-cased message. -/
def isRecoverableError (e : Err) : Bool :=
  let m := lowerStr e.message
  strIncludes m "timeout" || strIncludes m "network" ||
  strIncludes m "connection" || strIncludes m "fetch failed" ||
  strIncludes m "econnrefused" || strIncludes m "enotfound"

structure FetchTrace where
  result : Except Err (List ShippingRate)
  invocations : Nat
  delays : List Nat

/-- Body of the `for (attempt = 0; attempt < maxRetries; attempt++)` loop of
`retryWithBackoff`, with `rem` the number of iterations left
(`attempt = maxRetries - rem`); `attempt === maxRetries - 1` is `rem = 1`.
On a non-final failure the loop awaits `2^attempt * 1000` ms. -/
def retryGo (fetch : Nat → Except Err (List ShippingRate)) (attempt : Nat) :
    Nat → FetchTrace
  | 0 => ⟨Except.ok [], 0, []⟩
  | rem + 1 =>
    match fetch attempt with
    | Except.ok rates => ⟨Except.ok rates, 1, []⟩
    | Except.error e =>
      if rem = 0 then ⟨Except.error e, 1, []⟩
      else
        let t := retryGo fetch (attempt + 1) rem
        ⟨t.result, t.invocations + 1, (2 ^ attempt * 1000) :: t.delays⟩

/-- `retryWithBackoff(carrier, request, maxRetries)`, over the invocation
results `fetch`. -/
def retryWithBackoff (fetch : Nat → Except Err (List ShippingRate))
    (maxRetries : Nat) : FetchTrace :=
  retryGo fetch 0 maxRetries

/-- `fetchCarrierRate`: one initial invocation; on a recoverable failure the
whole call is retried via `retryWithBackoff(carrier, request, 3)` (whose
invocations continue the per-request invocation numbering); a non-recoverable
failure is rethrown. -/
def fetchCarrierRate (adapters : AdapterRegistry) (c : CarrierName) : FetchTrace :=
  match getCarrierAdapterResult adapters c 0 with
  | Except.ok rates => ⟨Except.ok rates, 1, []⟩
  | Except.error e =>
    if isRecoverableError e then
      let t := retryWithBackoff (fun k => getCarrierAdapterResult adapters c (k + 1)) 3
      ⟨t.result, t.invocations + 1, t.delays⟩
    else ⟨Except.error e, 1, []⟩

/-- The sort comparator of `sortRates`: ascending total cost, ties broken by
earlier estimated delivery date. -/
def rateLE (a b : ShippingRate) : Bool :=
  if a.totalCost ≠ b.totalCost then decide (a.totalCost < b.totalCost)
  else decide (a.estimatedDeliveryDate ≤ b.estimatedDeliveryDate)

/-- Stable insertion of a rate into an already sorted list. -/
def insertRate (r : ShippingRate) : List ShippingRate → List ShippingRate
  | [] => [r]
  | x :: xs => if rateLE x r then x :: insertRate r xs else r :: x :: xs

/-- `sortRates`: JS `Array.prototype.sort` is a stable comparison sort;
embedded as stable insertion sort with the same comparator. -/
def sortRates (rates : List ShippingRate) : List ShippingRate :=
  rates.foldr insertRate []

/-- `request.carriersFilter ?? ['FedEx']`: nullish coalescing keeps a
present-but-empty array. -/
def targetCarriers (request : RateRequest) : List CarrierName :=
  match request.carriersFilter with
  | some cs => cs
  | none => ["FedEx"]

/-- `RateService.fetchAllRates`: fan out over the target carriers
(`Promise.allSettled` never rejects), collect fulfilled rate lists in carrier
order, convert each rejection into one `CarrierError`, sort the merged rates.
`requestId` (a random UUID) and `now` (the generation timestamp) are
parameters of the embedding. -/
def fetchAllRates (adapters : AdapterRegistry) (requestId : String) (now : ℤ)
    (request : RateRequest) : RateResponse :=
  let carriers := targetCarriers request
  let results := carriers.map (fun c => (c, (fetchCarrierRate adapters c).result))
  let rates := results.foldr
    (fun p acc => match p.2 with
      | Except.ok rs => rs ++ acc
      | Except.error _ => acc) []
  let errors := results.filterMap
    (fun p => match p.2 with
      | Except.error e => some ⟨p.1, e.message, isRecoverableError e⟩
      | Except.ok _ => none)
  ⟨requestId, sortRates rates, errors, now⟩

/-! ## FedEx Carrier Adapter (`FedExAdapter.ts`, `FedExAdapter_types.ts`)

The raw carrier response is embedded structurally.  ISO date strings are
modelled by their parsed timestamp (`Option ℤ`, `none` for an absent field);
the cosmetic `transitTime` advisory string (only surfaced inside the
free-form feature strings) is not modelled. -/

inductive FedExNetCharge
  | num (value : ℚ)
  | obj (amount : Option ℚ)
deriving DecidableEq

structure FedExSurcharge where
  type : String
  amount : ℚ
  description : Option String
deriving DecidableEq

/-- One `ratedShipmentDetails` entry; `surCharges` stands for
`shipmentRateDetail?.surCharges`. -/
structure FedExRatedShipmentDetail where
  rateType : String
  totalNetCharge : Option FedExNetCharge
  totalNetChargeWithDutiesAndTaxes : Option ℚ
  totalBaseCharge : Option ℚ
  surCharges : Option (List FedExSurcharge)
deriving DecidableEq

structure FedExOperationalDetail where
  commitDate : Option ℤ
  deliveryDay : Option String
  ineligibleForMoneyBackGuarantee : Bool
deriving DecidableEq

/-- One `rateReplyDetails` entry; `serviceDescriptionCode` stands for
`serviceDescription?.code` and `commitDayCxsFormat` for
`commit?.dateDetail?.dayCxsFormat`. -/
structure FedExRateReplyDetail where
  serviceType : String
  serviceName : String
  serviceDescriptionCode : Option String
  ratedShipmentDetails : List FedExRatedShipmentDetail
  commitDayCxsFormat : Option ℤ
  operationalDetail : Option FedExOperationalDetail
deriving DecidableEq

structure FedExAlert where
  code : String
  message : String
  alertType : String
deriving DecidableEq

structure FedExRateResponse where
  rateReplyDetails : List FedExRateReplyDetail
  alerts : List FedExAlert
deriving DecidableEq

inductive FedExPackagingType
  | YOUR_PACKAGING
  | FEDEX_ENVELOPE
  | FEDEX_TUBE
deriving DecidableEq

/-- `PACKAGING_LIMITS.ENVELOPE.maxKg`. -/
def ENVELOPE_MAX_KG : ℚ := 0.5

/-- `PACKAGING_LIMITS.TUBE.maxKg`. -/
def TUBE_MAX_KG : ℚ := 9.1

/-- The lbs→kg factor `0.453592` used by `getPackagingType`. -/
def LBS_TO_KG : ℚ := 0.453592

def weightInKg (w : PackageWeight) : ℚ :=
  if w.unit = WeightUnit.lbs then w.value * LBS_TO_KG else w.value

/-- JS `Number.prototype.toFixed(2)` for the non-negative weights that reach
the error messages. -/
def toFixed2 (q : ℚ) : String :=
  let n : ℤ := round (q * 100)
  let whole := n / 100
  let frac := (n % 100).toNat
  toString whole ++ "." ++ (if frac < 10 then "0" ++ toString frac else toString frac)

def envelopeLimitMessage (weightKg : ℚ) : String :=
  "FedEx Envelope max weight is 0.5 kg. Your package weighs " ++
    toFixed2 weightKg ++ " kg."

def tubeLimitMessage (weightKg : ℚ) : String :=
  "FedEx Tube max weight is 9.1 kg. Your package weighs " ++
    toFixed2 weightKg ++ " kg."

/-- `FedExAdapter.getPackagingType`: physical-limit validation of the chosen
packaging class, before any use of the network in `buildFedExRequest`. -/
def getPackagingType (packageType : PackageType) (weight : PackageWeight) :
    Except Err FedExPackagingType :=
  let weightKg := weightInKg weight
  if packageType = PackageType.envelope then
    if ENVELOPE_MAX_KG < weightKg then
      Except.error ⟨envelopeLimitMessage weightKg⟩
    else Except.ok FedExPackagingType.FEDEX_ENVELOPE
  else if packageType = PackageType.tube then
    if TUBE_MAX_KG < weightKg then
      Except.error ⟨tubeLimitMessage weightKg⟩
    else Except.ok FedExPackagingType.FEDEX_TUBE
  else Except.ok FedExPackagingType.YOUR_PACKAGING

/-- `FedExAdapter.handleAlerts`: a fatal `ERROR` alert aborts normalization;
`WARNING` alerts are only logged. -/
def handleAlerts (alerts : List FedExAlert) : Except Err Unit :=
  match alerts.filter (fun a => decide (a.alertType = "ERROR")) with
  | [] => Except.ok ()
  | e :: _ => Except.error ⟨"FedEx API Error: " ++ e.message⟩

/-- `FedExAdapter.selectRate`: prefer an `ACCOUNT` rate, then `LIST`, then
the first entry. -/
def selectRate (details : List FedExRatedShipmentDetail) :
    Option FedExRatedShipmentDetail :=
  match details.find? (fun d => decide (d.rateType = "ACCOUNT")) with
  | some d => some d
  | none =>
    match details.find? (fun d => decide (d.rateType = "LIST")) with
    | some d => some d
    | none => details.head?

/-- `FedExAdapter.extractTotalCharge`: duties-and-taxes-inclusive figure if
numeric, else numeric net charge, else the `amount` member of the net-charge
object, else an extraction error. -/
def extractTotalCharge (ratedShipment : FedExRatedShipmentDetail) : Except Err ℚ :=
  match ratedShipment.totalNetChargeWithDutiesAndTaxes with
  | some v => Except.ok v
  | none =>
    match ratedShipment.totalNetCharge with
    | some (FedExNetCharge.num v) => Except.ok v
    | some (FedExNetCharge.obj (some a)) => Except.ok a
    | _ => Except.error ⟨"Could not extract total charge from FedEx response"⟩

/-- `FedExAdapter.mapServiceTypeToSpeed`: explicit lookup, defaulting to the
`economy` tier. -/
def mapServiceTypeToSpeed (serviceType : String) : ServiceSpeed :=
  if serviceType = "FEDEX_INTERNATIONAL_FIRST" ∨ serviceType = "INTERNATIONAL_FIRST" ∨
     serviceType = "PRIORITY_OVERNIGHT" ∨ serviceType = "FIRST_OVERNIGHT" ∨
     serviceType = "STANDARD_OVERNIGHT" then
    ServiceSpeed.overnight
  else if serviceType = "FEDEX_INTERNATIONAL_PRIORITY" ∨ serviceType = "FEDEX_2_DAY" ∨
     serviceType = "FEDEX_2_DAY_AM" then
    ServiceSpeed.twoDay
  else if serviceType = "FEDEX_INTERNATIONAL_ECONOMY" ∨ serviceType = "INTERNATIONAL_ECONOMY" ∨
     serviceType = "FEDEX_EXPRESS_SAVER" ∨ serviceType = "FEDEX_GROUND" then
    ServiceSpeed.standard
  else ServiceSpeed.economy

/-- `FedExAdapter.mapSurchargeType`: explicit table, unmapped types pass
through lower-cased with underscores removed. -/
def mapSurchargeType (t : String) : String :=
  if t = "FUEL" then "fuel"
  else if t = "RESIDENTIAL_DELIVERY" then "residentialdelivery"
  else if t = "SIGNATURE_OPTION" then "signature"
  else if t = "DECLARED_VALUE" then "insurance"
  else if t = "SATURDAY_DELIVERY" then "saturdaydelivery"
  else String.mk ((lowerStr t).filter (fun c => c ≠ '_'))

/-- `DELIVERY_DAYS` per-tier day table (`all` never reaches the table:
`estimateDeliveryDate` substitutes `standard` first). -/
def deliveryDays (isInternational : Bool) : ServiceSpeed → ℤ
  | ServiceSpeed.overnight => if isInternational then 3 else 1
  | ServiceSpeed.twoDay => if isInternational then 7 else 2
  | ServiceSpeed.standard => if isInternational then 10 else 3
  | ServiceSpeed.economy => if isInternational then 14 else 5
  | ServiceSpeed.all => if isInternational then 10 else 3

/-- `FedExAdapter.estimateDeliveryDate`: now plus the per-tier day count. -/
def estimateDeliveryDate (now : ℤ) (speed : ServiceSpeed)
    (isInternational : Bool) : ℤ :=
  let effectiveSpeed := if speed = ServiceSpeed.all then ServiceSpeed.standard else speed
  now + deliveryDays isInternational effectiveSpeed

/-- `FedExAdapter.parseDeliveryDate`: carrier commitment if present
(`commit?.dateDetail?.dayCxsFormat || operationalDetail?.commitDate`), else
the per-tier estimate. -/
def parseDeliveryDate (now : ℤ) (detail : FedExRateReplyDetail) : ℤ :=
  let fromCarrier := match detail.commitDayCxsFormat with
    | some d => some d
    | none => match detail.operationalDetail with
      | some od => od.commitDate
      | none => none
  match fromCarrier with
  | some d => d
  | none =>
    estimateDeliveryDate now (mapServiceTypeToSpeed detail.serviceType)
      (containsList "INTERNATIONAL".toList detail.serviceType.toList)

/-- Display of `options.insuredValue` inside a template string (JS prints
`undefined` for an absent value). -/
def showInsuredValue : Option ℚ → String
  | some v => toString v
  | none => "undefined"

/-- `FedExAdapter.extractFeatures` (minus the unmodelled `transitTime`
advisory string). -/
def extractFeatures (detail : FedExRateReplyDetail) (options : ShippingOptions) :
    List String :=
  let ineligible := match detail.operationalDetail with
    | some od => od.ineligibleForMoneyBackGuarantee
    | none => false
  (if options.signatureRequired then ["Signature Required"] else []) ++
  (if options.saturdayDelivery then ["Saturday Delivery"] else []) ++
  (if options.fragileHandling then ["Fragile Handling"] else []) ++
  (if options.insurance then ["Insurance: $" ++ showInsuredValue options.insuredValue] else []) ++
  (match detail.operationalDetail with
   | some od => match od.deliveryDay with
     | some d => ["Delivers " ++ d]
     | none => []
   | none => []) ++
  (if ineligible then [] else ["Money-Back Guarantee"])

/-- The quote pushed by `adaptFedExResponse` for one reply detail.  The id
(derived in the source from the clock and a random suffix) is abstracted to
the loop index. -/
def toShippingRate (now : ℤ) (options : ShippingOptions)
    (detail : FedExRateReplyDetail) (ratedShipment : FedExRatedShipmentDetail)
    (totalNetCharge : ℚ) (index : Nat) : ShippingRate :=
  { id := "fedex-" ++ toString index
    carrier := "FedEx"
    serviceCode := match detail.serviceDescriptionCode with
      | some c => c
      | none => detail.serviceType
    serviceName := detail.serviceName
    speed := mapServiceTypeToSpeed detail.serviceType
    features := extractFeatures detail options
    baseRate := match ratedShipment.totalBaseCharge with
      | some b => b
      | none => 0
    additionalFees :=
      (ratedShipment.surCharges.getD []).map (fun s =>
        ⟨mapSurchargeType s.type, s.amount,
          match s.description with
          | some d => d
          | none => s.type⟩)
    totalCost := round2 totalNetCharge
    estimatedDeliveryDate := parseDeliveryDate now detail
    guaranteedDelivery := match detail.operationalDetail with
      | some od => !od.ineligibleForMoneyBackGuarantee
      | none => true }

/-- The indexed loop body of `adaptFedExResponse`: skip a detail without a
usable rated shipment, propagate an extraction error, otherwise push the
normalized quote. -/
def adaptDetails (now : ℤ) (options : ShippingOptions) :
    List FedExRateReplyDetail → Nat → Except Err (List ShippingRate)
  | [], _ => Except.ok []
  | d :: rest, index =>
    match selectRate d.ratedShipmentDetails with
    | none => adaptDetails now options rest (index + 1)
    | some rs =>
      match extractTotalCharge rs with
      | Except.error e => Except.error e
      | Except.ok total =>
        match adaptDetails now options rest (index + 1) with
        | Except.error e => Except.error e
        | Except.ok others =>
          Except.ok (toShippingRate now options d rs total index :: others)

/-- `FedExAdapter.adaptFedExResponse`: fatal alerts abort, an empty reply
yields an empty list, otherwise every reply detail is normalized. -/
def adaptFedExResponse (now : ℤ) (rateResponse : FedExRateResponse)
    (options : ShippingOptions) : Except Err (List ShippingRate) :=
  match handleAlerts rateResponse.alerts with
  | Except.error e => Except.error e
  | Except.ok _ => adaptDetails now options rateResponse.rateReplyDetails 0

/-- `FedExAdapter.fetchRates` after `callFedExAPI` has produced `rateResponse`:
normalize, then filter by the requested speed unless it is `all`. -/
def fetchRatesFromResponse (now : ℤ) (rateResponse : FedExRateResponse)
    (options : ShippingOptions) : Except Err (List ShippingRate) :=
  match adaptFedExResponse now rateResponse options with
  | Except.error e => Except.error e
  | Except.ok allRates =>
    if options.speed = ServiceSpeed.all then Except.ok allRates
    else Except.ok (allRates.filter (fun r => decide (r.speed = options.speed)))

/-! ## Token lifecycle and the order of effects in `callFedExAPI` -/

structure TokenCache where
  token : String
  expiresAt : ℤ
deriving DecidableEq

/-- `TOKEN_CACHE_BUFFER_MS = 5 * 60 * 1000`. -/
def TOKEN_CACHE_BUFFER_MS : ℤ := 5 * 60 * 1000

/-- The guard of `getAccessToken`: the cached token is used only while it
expires more than the buffer after now. -/
def tokenCacheValid (cache : Option TokenCache) (now : ℤ) : Bool :=
  match cache with
  | some tc => decide (now + TOKEN_CACHE_BUFFER_MS < tc.expiresAt)
  | none => false

inductive NetEvent
  | tokenRequest
  | rateRequest
deriving DecidableEq

/-- The network events of one `callFedExAPI` call together with the error it
throws, in source order: `getAccessToken` first (a token-endpoint request
unless the cache is still valid), then `buildFedExRequest` — whose
`getPackagingType` may throw the physical-limit error — and only then the
rate-endpoint request. -/
def callFedExAPIEvents (cache : Option TokenCache) (now : ℤ)
    (request : RateRequest) : List NetEvent × Option Err :=
  let tokenEvents := if tokenCacheValid cache now then [] else [NetEvent.tokenRequest]
  match getPackagingType request.package.type request.package.weight with
  | Except.error e => (tokenEvents, some e)
  | Except.ok _ => (tokenEvents ++ [NetEvent.rateRequest], none)

/-- Adapter token state plus a ghost counter of token-endpoint requests.
`tokenPromiseActive` models a non-null `this.tokenPromise`. -/
structure TokenState where
  tokenCache : Option TokenCache
  tokenPromiseActive : Bool
  refreshCount : Nat
deriving DecidableEq

/-- The synchronous section of `getAccessToken` run by one caller on the
single-threaded event loop: use a still-valid cached token, else join an
in-flight refresh, else start a new refresh (one token-endpoint request). -/
def getAccessTokenCheck (now : ℤ) (st : TokenState) : TokenState :=
  if tokenCacheValid st.tokenCache now then st
  else if st.tokenPromiseActive then st
  else { st with tokenPromiseActive := true, refreshCount := st.refreshCount + 1 }

/-- `n` concurrent callers whose synchronous sections all run before the
in-flight refresh resolves (the premise of the single-flight property). -/
def runConcurrentCallers (now : ℤ) (st : TokenState) : Nat → TokenState
  | 0 => st
  | n + 1 => runConcurrentCallers now (getAccessTokenCheck now st) n

/-! ## Concrete fixtures used by witnesses and counterexamples -/

def testAddress : Address :=
  ⟨"Origin", "123 Main", "New York", "US-NY", "10001", "US", none, none⟩

def boxPackage : Package :=
  ⟨"pkg-1", ⟨10, 8, 6, DimUnit.inch⟩, ⟨5, WeightUnit.lbs⟩, PackageType.box, none⟩

def plainOptions : ShippingOptions :=
  ⟨ServiceSpeed.standard, false, false, false, false, none⟩

def c1Options : ShippingOptions :=
  ⟨ServiceSpeed.standard, true, true, false, false, some 250⟩

def c1Quote : ShippingRate :=
  ⟨"fedex-base", "FedEx", "FEDEX_GROUND", "FedEx Ground", ServiceSpeed.standard,
    [], 15, [], 15, 3, true⟩

def c1Registry : AdapterRegistry := fun c =>
  if c = "FedEx" then some (fun _ => Except.ok [c1Quote]) else none

def c1Request : RateRequest :=
  ⟨boxPackage, testAddress, testAddress, c1Options, none⟩

def c2Quote : ShippingRate :=
  ⟨"b-1", "CarrierB", "GROUND", "B Ground", ServiceSpeed.standard,
    [], 40, [], 42.75, 3, true⟩

def c2Registry : AdapterRegistry := fun c =>
  if c = "CarrierA" then some (fun _ => Except.error ⟨"fatal carrier outage"⟩)
  else if c = "CarrierB" then some (fun _ => Except.ok [c2Quote])
  else none

def c2Request : RateRequest :=
  ⟨boxPackage, testAddress, testAddress, plainOptions, some ["CarrierA", "CarrierB"]⟩

def c3Behavior : AdapterBehavior :=
  fun _ => Except.error ⟨"Request timeout after 5000ms"⟩

def c3Registry : AdapterRegistry := fun c =>
  if c = "FedEx" then some c3Behavior else none

def c3Request : RateRequest :=
  ⟨boxPackage, testAddress, testAddress, plainOptions, some ["FedEx"]⟩

def c4Rs : FedExRatedShipmentDetail :=
  ⟨"LIST", some (FedExNetCharge.num 100), none, some 10, some []⟩

def c4Detail : FedExRateReplyDetail :=
  ⟨"FEDEX_GROUND", "FedEx Ground", none, [c4Rs], none, none⟩

def c4Resp : FedExRateResponse := ⟨[c4Detail], []⟩

def c4Opts : ShippingOptions :=
  ⟨ServiceSpeed.all, false, false, false, false, none⟩

def c4Quote : ShippingRate := toShippingRate 0 c4Opts c4Detail c4Rs 100 0

def c4WitnessRs : FedExRatedShipmentDetail :=
  ⟨"ACCOUNT", some (FedExNetCharge.num 12), none, some 10, some [⟨"FUEL", 2, none⟩]⟩

def c4WitnessDetail : FedExRateReplyDetail :=
  ⟨"FEDEX_GROUND", "FedEx Ground", none, [c4WitnessRs], none, none⟩

def c5Package : Package :=
  ⟨"pkg-5", ⟨10, 8, 1, DimUnit.inch⟩, ⟨1, WeightUnit.kg⟩, PackageType.envelope, none⟩

def c5Request : RateRequest :=
  ⟨c5Package, testAddress, testAddress, plainOptions, none⟩

def c6Opts : ShippingOptions :=
  ⟨ServiceSpeed.overnight, false, false, false, false, none⟩

def c6RsOvernight : FedExRatedShipmentDetail :=
  ⟨"ACCOUNT", some (FedExNetCharge.num 45), none, some 45, some []⟩

def c6DetailOvernight : FedExRateReplyDetail :=
  ⟨"PRIORITY_OVERNIGHT", "FedEx Priority Overnight", none, [c6RsOvernight], none, none⟩

def c6RsGround : FedExRatedShipmentDetail :=
  ⟨"ACCOUNT", some (FedExNetCharge.num 12), none, some 12, some []⟩

def c6DetailGround : FedExRateReplyDetail :=
  ⟨"FEDEX_GROUND", "FedEx Ground", none, [c6RsGround], none, none⟩

def c6Resp : FedExRateResponse := ⟨[c6DetailOvernight, c6DetailGround], []⟩

def c6QuoteOvernight : ShippingRate :=
  toShippingRate 0 c6Opts c6DetailOvernight c6RsOvernight 45 0

def c6QuoteGround : ShippingRate :=
  toShippingRate 0 c6Opts c6DetailGround c6RsGround 12 1

def c7Quote : ShippingRate :=
  ⟨"fedex-7", "FedEx", "FEDEX_GROUND", "FedEx Ground", ServiceSpeed.standard,
    [], 20, [], 20, 3, true⟩

def c7Registry : AdapterRegistry := fun c =>
  if c = "FedEx" then some (fun _ => Except.ok [c7Quote]) else none

def c7RequestEmptyList : RateRequest :=
  ⟨boxPackage, testAddress, testAddress, plainOptions, some []⟩

def c7RequestNoList : RateRequest :=
  ⟨boxPackage, testAddress, testAddress, plainOptions, none⟩

def c9State : TokenState := ⟨none, false, 0⟩

def c10Quote : ShippingRate :=
  ⟨"fedex-10", "FedEx", "FEDEX_GROUND", "FedEx Ground", ServiceSpeed.standard,
    [], 18, [], 18, 3, true⟩

def c10Registry : AdapterRegistry := fun c =>
  if c = "FedEx" then some (fun _ => Except.ok [c10Quote]) else none

def c10Request : RateRequest :=
  ⟨boxPackage, testAddress, testAddress, plainOptions, some ["UPS", "FedEx"]⟩

/-! ## Helper lemmas -/

theorem insertRate_perm (r : ShippingRate) :
    ∀ l : List ShippingRate, (insertRate r l).Perm (r :: l)
  | [] => List.Perm.refl _
  | x :: xs => by
    by_cases h : rateLE x r
    · have ih := insertRate_perm r xs
      simp only [insertRate, h, if_true]
      exact (ih.cons x).trans (List.Perm.swap r x xs)
    · simp only [insertRate, h, if_false]
      exact List.Perm.refl _

theorem sortRates_perm : ∀ l : List ShippingRate, (sortRates l).Perm l
  | [] => List.Perm.refl _
  | x :: xs => by
    have ih := sortRates_perm xs
    have h1 : sortRates (x :: xs) = insertRate x (sortRates xs) := rfl
    rw [h1]
    exact (insertRate_perm x (sortRates xs)).trans (ih.cons x)

theorem applyModifier_cost (c : RateComponent) (m : FeeModifier) :
    (applyModifier c m).cost = c.cost + modifierFee m := by
  cases m <;> rfl

theorem applyModifier_fees (c : RateComponent) (m : FeeModifier) :
    (applyModifier c m).fees = c.fees ++ [modifierFeeEntry m] := by
  cases m <;> rfl

theorem applyModifiers_cost :
    ∀ (ms : List FeeModifier) (c : RateComponent),
      (applyModifiers c ms).cost = c.cost + (ms.map modifierFee).sum
  | [], c => by simp [applyModifiers]
  | m :: ms, c => by
    have ih := applyModifiers_cost ms (applyModifier c m)
    have h1 : applyModifiers c (m :: ms) = applyModifiers (applyModifier c m) ms := rfl
    rw [h1, ih, applyModifier_cost]
    simp [add_assoc]

theorem applyModifiers_fees :
    ∀ (ms : List FeeModifier) (c : RateComponent),
      (applyModifiers c ms).fees = c.fees ++ ms.map modifierFeeEntry
  | [], c => by simp [applyModifiers]
  | m :: ms, c => by
    have ih := applyModifiers_fees ms (applyModifier c m)
    have h1 : applyModifiers c (m :: ms) = applyModifiers (applyModifier c m) ms := rfl
    rw [h1, ih, applyModifier_fees]
    simp

theorem applyFees_eq_applyModifiers (b : RateComponent) (o : ShippingOptions) :
    applyFees b o = applyModifiers b (applicableModifiers o) := by
  rcases o with ⟨speed, sig, ins, fra, sat, iv⟩
  rcases iv with _ | v
  · cases sig <;> cases ins <;> cases fra <;> cases sat <;>
      simp [applyFees, applicableModifiers, applyModifiers, applyModifier]
  · by_cases hv : v = 0 <;> cases sig <;> cases ins <;> cases fra <;> cases sat <;>
      simp [applyFees, applicableModifiers, applyModifiers, applyModifier, hv]

theorem round2_intCast (n : ℤ) : round2 ((n : ℚ)) = (n : ℚ) := by
  unfold round2
  rw [show ((n : ℚ) * 100) = (((n * 100 : ℤ) : ℚ)) by push_cast; ring, round_intCast]
  push_cast
  field_simp

theorem round2_two_decimals (n : ℤ) : round2 ((n : ℚ) / 100) = (n : ℚ) / 100 := by
  unfold round2
  rw [show ((n : ℚ) / 100 * 100) = ((n : ℤ) : ℚ) by field_simp, round_intCast]

theorem calculateInsuranceFee_250 : calculateInsuranceFee 250 = 2.5 := by
  unfold calculateInsuranceFee
  rw [show (max ((250 : ℚ) / 100 * 1) 2.5) = ((250 : ℤ) : ℚ) / 100 by norm_num,
    round2_two_decimals]
  norm_num

theorem fetchCarrierRate_allFail (adapters : AdapterRegistry) (c : CarrierName)
    (b : AdapterBehavior) (hb : adapters c = some b)
    (hfail : ∀ k : Nat, ∃ e : Err, b k = Except.error e)
    (hrec : ∀ (k : Nat) (e : Err), b k = Except.error e → isRecoverableError e = true) :
    ∃ e3 : Err, b 3 = Except.error e3 ∧
      fetchCarrierRate adapters c = ⟨Except.error e3, 4, [1000, 2000]⟩ := by
  obtain ⟨e0, h0⟩ := hfail 0
  obtain ⟨e1, h1⟩ := hfail 1
  obtain ⟨e2, h2⟩ := hfail 2
  obtain ⟨e3, h3⟩ := hfail 3
  refine ⟨e3, h3, ?_⟩
  have r0 := hrec 0 e0 h0
  simp [fetchCarrierRate, getCarrierAdapterResult, hb, h0, r0, retryWithBackoff,
    retryGo, h1, h2, h3]

theorem collectRates_eq (adapters : AdapterRegistry) :
    ∀ cs : List CarrierName,
      ((cs.map (fun c => (c, (fetchCarrierRate adapters c).result))).foldr
        (fun p acc => match p.2 with
          | Except.ok rs => rs ++ acc
          | Except.error _ => acc) []) =
      ((cs.map (fun c => match (fetchCarrierRate adapters c).result with
          | Except.ok rs => rs
          | Except.error _ => [])).flatten)
  | [] => rfl
  | c :: cs => by
    have ih := collectRates_eq adapters cs
    simp only [List.map_cons, List.foldr_cons, List.flatten, ih]
    cases (fetchCarrierRate adapters c).result <;> simp

theorem runConcurrentCallers_stable (now : ℤ) (st : TokenState)
    (hcache : tokenCacheValid st.tokenCache now = false)
    (hact : st.tokenPromiseActive = true) :
    ∀ n : Nat, runConcurrentCallers now st n = st := by
  intro n
  induction n with
  | zero => rfl
  | succ m ih =>
    have h1 : getAccessTokenCheck now st = st := by
      simp [getAccessTokenCheck, hcache, hact]
    show runConcurrentCallers now (getAccessTokenCheck now st) m = st
    rw [h1, ih]

/-! ## Claim theorems -/

/-- C2: an error raised inside one carrier's adapter call never escapes to the
caller (the aggregation always returns a result value); if carrier A's adapter
always throws a non-recoverable error and carrier B's succeeds, aggregating
both yields exactly one CarrierError for A with recoverable = false together
with all of B's quotes. -/
theorem c2_failure_isolation (adapters : AdapterRegistry) (A B : CarrierName)
    (e : Err) (qs : List ShippingRate) (request : RateRequest)
    (requestId : String) (now : ℤ)
    (hA : adapters A = some (fun _ => Except.error e))
    (hrec : isRecoverableError e = false)
    (hB : adapters B = some (fun _ => Except.ok qs))
    (hreq : request.carriersFilter = some [A, B]) :
    (fetchAllRates adapters requestId now request).errors = [⟨A, e.message, false⟩] ∧
    (fetchAllRates adapters requestId now request).rates.Perm qs := by
  have hfA : fetchCarrierRate adapters A = ⟨Except.error e, 1, []⟩ := by
    simp [fetchCarrierRate, getCarrierAdapterResult, hA, hrec]
  have hfB : fetchCarrierRate adapters B = ⟨Except.ok qs, 1, []⟩ := by
    simp [fetchCarrierRate, getCarrierAdapterResult, hB]
  constructor
  · simp [fetchAllRates, targetCarriers, hreq, hfA, hfB, hrec]
  · have h : (fetchAllRates adapters requestId now request).rates = sortRates (qs ++ []) := by
      simp [fetchAllRates, targetCarriers, hreq, hfA, hfB]
    rw [h, List.append_nil]
    exact sortRates_perm qs

/-- Witness for C2 at a concrete registry: carrier A always fails with a
non-recoverable error, carrier B returns one 42.75 quote. -/
theorem c2_failure_isolation_witness :
    (fetchAllRates c2Registry "req-2" 0 c2Request).errors =
      [⟨"CarrierA", "fatal carrier outage", false⟩] ∧
    (fetchAllRates c2Registry "req-2" 0 c2Request).rates.Perm [c2Quote] :=
  c2_failure_isolation c2Registry "CarrierA" "CarrierB" ⟨"fatal carrier outage"⟩
    [c2Quote] c2Request "req-2" 0 rfl (by decide) rfl rfl

/-- C3 as stated is false: a carrier whose adapter fails recoverably on every
attempt is invoked 4 times in total (1 initial call + 3 retry attempts), not
3 as the claim says. -/
theorem c3_counterexample :
    (fetchCarrierRate c3Registry "FedEx").invocations = 4 ∧
    ((fetchCarrierRate c3Registry "FedEx").invocations = 3 → False) := by
  constructor
  · decide
  · decide

/-- C3 (amended): a carrier whose adapter fails with a recoverable error on
every attempt is invoked exactly 4 times (1 initial + 3 retries), with
exponential backoff delays of 2^attempt seconds (1000 ms, 2000 ms) between
consecutive retry attempts, and then yields exactly one CarrierError with
recoverable = true for that carrier. -/
theorem c3_retry_bound (adapters : AdapterRegistry) (c : CarrierName)
    (b : AdapterBehavior) (request : RateRequest) (requestId : String) (now : ℤ)
    (hb : adapters c = some b)
    (hfail : ∀ k : Nat, ∃ e : Err, b k = Except.error e)
    (hrec : ∀ (k : Nat) (e : Err), b k = Except.error e → isRecoverableError e = true)
    (hreq : request.carriersFilter = some [c]) :
    (fetchCarrierRate adapters c).invocations = 4 ∧
    (fetchCarrierRate adapters c).delays = [1000, 2000] ∧
    ∃ e : Err, b 3 = Except.error e ∧
      (fetchAllRates adapters requestId now request).errors = [⟨c, e.message, true⟩] ∧
      (fetchAllRates adapters requestId now request).rates = [] := by
  obtain ⟨e3, h3, htrace⟩ := fetchCarrierRate_allFail adapters c b hb hfail hrec
  refine ⟨by rw [htrace], by rw [htrace], e3, h3, ?_, ?_⟩
  · simp [fetchAllRates, targetCarriers, hreq, htrace, hrec 3 e3 h3]
  · simp [fetchAllRates, targetCarriers, hreq, htrace, sortRates]

/-- Witness for the amended C3 at a concrete always-timing-out adapter. -/
theorem c3_retry_bound_witness :
    (fetchCarrierRate c3Registry "FedEx").invocations = 4 ∧
    (fetchCarrierRate c3Registry "FedEx").delays = [1000, 2000] ∧
    ∃ e : Err, c3Behavior 3 = Except.error e ∧
      (fetchAllRates c3Registry "req-3" 0 c3Request).errors = [⟨"FedEx", e.message, true⟩] ∧
      (fetchAllRates c3Registry "req-3" 0 c3Request).rates = [] :=
  c3_retry_bound c3Registry "FedEx" c3Behavior c3Request "req-3" 0 rfl
    (fun _ => ⟨⟨"Request timeout after 5000ms"⟩, rfl⟩)
    (fun _ e h => by cases h; decide) rfl

/-- C8: for any base cost and any permutation of a fixed list of applicable
fee modifiers, the stacked total equals the base cost plus the sum of the
modifier fee amounts, is independent of application order, and the resulting
fee lists are permutations of each other. -/
theorem c8_fee_order_independence (base : RateComponent) (ms msPerm : List FeeModifier)
    (h : ms.Perm msPerm) :
    (applyModifiers base ms).cost = base.cost + (ms.map modifierFee).sum ∧
    (applyModifiers base ms).cost = (applyModifiers base msPerm).cost ∧
    (applyModifiers base ms).fees.Perm ((applyModifiers base msPerm).fees) := by
  refine ⟨applyModifiers_cost ms base, ?_, ?_⟩
  · rw [applyModifiers_cost ms base, applyModifiers_cost msPerm base,
      List.Perm.sum_eq (h.map modifierFee)]
  · rw [applyModifiers_fees ms base, applyModifiers_fees msPerm base]
    exact (h.map modifierFeeEntry).append_left base.fees

/-- Witness for C8: swapping signature and fragile handling over a 15.00 base. -/
theorem c8_fee_order_independence_witness :
    (applyModifiers (BaseRate 15 "FedEx Ground")
        [FeeModifier.signature, FeeModifier.fragile]).cost =
      (BaseRate 15 "FedEx Ground").cost +
        ([FeeModifier.signature, FeeModifier.fragile].map modifierFee).sum ∧
    (applyModifiers (BaseRate 15 "FedEx Ground")
        [FeeModifier.signature, FeeModifier.fragile]).cost =
      (applyModifiers (BaseRate 15 "FedEx Ground")
        [FeeModifier.fragile, FeeModifier.signature]).cost ∧
    (applyModifiers (BaseRate 15 "FedEx Ground")
        [FeeModifier.signature, FeeModifier.fragile]).fees.Perm
      ((applyModifiers (BaseRate 15 "FedEx Ground")
        [FeeModifier.fragile, FeeModifier.signature]).fees) :=
  c8_fee_order_independence (BaseRate 15 "FedEx Ground")
    [FeeModifier.signature, FeeModifier.fragile]
    [FeeModifier.fragile, FeeModifier.signature]
    (List.Perm.swap FeeModifier.fragile FeeModifier.signature [])

/-- C9: if n ≥ 1 concurrent callers on one adapter all observe an
expired-or-near-expiry cached token before any refresh resolves, exactly one
token-refresh network request is started; the others join the in-flight one. -/
theorem c9_single_flight_token (now : ℤ) (st : TokenState) (n : Nat)
    (hcache : tokenCacheValid st.tokenCache now = false)
    (hact : st.tokenPromiseActive = false)
    (hcount : st.refreshCount = 0)
    (hn : 1 ≤ n) :
    (runConcurrentCallers now st n).refreshCount = 1 := by
  obtain ⟨m, rfl⟩ : ∃ m, n = m + 1 := ⟨n - 1, by omega⟩
  have h1 : getAccessTokenCheck now st =
      { st with tokenPromiseActive := true, refreshCount := st.refreshCount + 1 } := by
    simp [getAccessTokenCheck, hcache, hact]
  show (runConcurrentCallers now (getAccessTokenCheck now st) m).refreshCount = 1
  rw [h1, runConcurrentCallers_stable now _ (by simpa using hcache) rfl m]
  simp [hcount]

/-- Witness for C9: three concurrent callers on a fresh adapter state. -/
theorem c9_single_flight_token_witness :
    (runConcurrentCallers 0 c9State 3).refreshCount = 1 :=
  c9_single_flight_token 0 c9State 3 rfl rfl rfl (by omega)

/-- C10: a request whose allow-list names the unregistered carrier id UPS
still aggregates normally: exactly one CarrierError with message
`Unknown carrier: UPS` and recoverable = false, no quotes from UPS, and all
quotes of the registered carrier. -/
theorem c10_unknown_carrier (adapters : AdapterRegistry) (qs : List ShippingRate)
    (request : RateRequest) (requestId : String) (now : ℤ)
    (hUPS : adapters "UPS" = none)
    (hFedEx : adapters "FedEx" = some (fun _ => Except.ok qs))
    (hreq : request.carriersFilter = some ["UPS", "FedEx"]) :
    (fetchAllRates adapters requestId now request).errors =
      [⟨"UPS", "Unknown carrier: UPS", false⟩] ∧
    (fetchAllRates adapters requestId now request).rates.Perm qs := by
  have hrecUPS : isRecoverableError (unknownCarrierError "UPS") = false := by decide
  have hfU : fetchCarrierRate adapters "UPS" =
      ⟨Except.error (unknownCarrierError "UPS"), 1, []⟩ := by
    simp [fetchCarrierRate, getCarrierAdapterResult, hUPS, hrecUPS]
  have hfF : fetchCarrierRate adapters "FedEx" = ⟨Except.ok qs, 1, []⟩ := by
    simp [fetchCarrierRate, getCarrierAdapterResult, hFedEx]
  constructor
  · simp [fetchAllRates, targetCarriers, hreq, hfU, hfF, hrecUPS]
    decide
  · have h : (fetchAllRates adapters requestId now request).rates = sortRates (qs ++ []) := by
      simp [fetchAllRates, targetCarriers, hreq, hfU, hfF]
    rw [h, List.append_nil]
    exact sortRates_perm qs

/-- Witness for C10: concrete registry with only FedEx registered, request
allow-list `["UPS", "FedEx"]`. -/
theorem c10_unknown_carrier_witness :
    (fetchAllRates c10Registry "req-10" 0 c10Request).errors =
      [⟨"UPS", "Unknown carrier: UPS", false⟩] ∧
    (fetchAllRates c10Registry "req-10" 0 c10Request).rates.Perm [c10Quote] :=
  c10_unknown_carrier c10Registry [c10Quote] c10Request "req-10" 0 rfl rfl rfl

/-- C1: the claim says the orchestrator applies the fee composition engine to
every adapter quote; in the code the aggregation path returns adapter quotes
unchanged — with the signature and insurance options of the spec example set,
the aggregated quote still has no appended Fee and an unchanged 15.00 total,
although `applyFees` on the same options would yield fees [5.50, 2.50] and
total 23.00. -/
theorem c1_fee_engine_not_applied :
    (fetchAllRates c1Registry "req-1" 0 c1Request).rates = [c1Quote] ∧
    c1Quote.additionalFees = [] ∧
    c1Quote.totalCost = 15 ∧
    (applyFees (BaseRate 15 "FedEx Ground") c1Options).cost = 23 ∧
    ((applyFees (BaseRate 15 "FedEx Ground") c1Options).fees.map Fee.amount) =
      [5.5, 2.5] := by
  have h250 : ((250 : ℚ) ≠ 0) := by norm_num
  refine ⟨rfl, rfl, rfl, ?_, ?_⟩
  · simp [applyFees, c1Options, SignatureDecorator, InsuranceDecorator, BaseRate,
      h250, calculateInsuranceFee_250, SIGNATURE_FEE]
    norm_num
  · simp [applyFees, c1Options, SignatureDecorator, InsuranceDecorator, BaseRate,
      h250, calculateInsuranceFee_250, SIGNATURE_FEE]

/-- C4 as stated is false: the FedEx adapter takes the total from the
carrier's net charge and the base and fees from separate response fields
without enforcing any relation; a response with net charge 100, base charge
10 and no surcharges normalizes to a quote violating
totalCost = baseRate + sum of fees. -/
theorem c4_counterexample :
    adaptFedExResponse 0 c4Resp c4Opts = Except.ok [c4Quote] ∧
    c4Quote.baseRate = 10 ∧
    c4Quote.additionalFees = [] ∧
    c4Quote.totalCost = 100 ∧
    c4Quote.totalCost ≠ c4Quote.baseRate +
      ((c4Quote.additionalFees.map Fee.amount).sum) := by
  have htot : c4Quote.totalCost = 100 := by
    show round2 100 = 100
    rw [show (100 : ℚ) = ((100 : ℤ) : ℚ) by norm_num, round2_intCast]
  have hbase : c4Quote.baseRate = 10 := rfl
  have hfees : c4Quote.additionalFees = [] := rfl
  refine ⟨rfl, hbase, hfees, htot, ?_⟩
  rw [htot, hbase, hfees]
  norm_num

/-- C4 (amended): a quote normalized by the FedEx adapter satisfies
totalCost = baseRate + sum of fee amounts exactly when the carrier response
itself is consistent: the extracted total equals the base charge plus the
surcharge amounts and survives two-decimal rounding; the adapter does not
enforce this. -/
theorem c4_total_consistent_response (now : ℤ) (options : ShippingOptions)
    (detail : FedExRateReplyDetail) (rs : FedExRatedShipmentDetail)
    (total b : ℚ) (index : Nat)
    (hb : rs.totalBaseCharge = some b)
    (hsum : total = b + (((rs.surCharges.getD []).map FedExSurcharge.amount).sum))
    (hround : round2 total = total) :
    (toShippingRate now options detail rs total index).totalCost =
      (toShippingRate now options detail rs total index).baseRate +
      (((toShippingRate now options detail rs total index).additionalFees.map
        Fee.amount).sum) := by
  have h1 : (toShippingRate now options detail rs total index).totalCost =
      round2 total := rfl
  have h2 : (toShippingRate now options detail rs total index).baseRate = b := by
    simp [toShippingRate, hb]
  have h3 : (toShippingRate now options detail rs total index).additionalFees.map
      Fee.amount = (rs.surCharges.getD []).map FedExSurcharge.amount := by
    simp [toShippingRate, List.map_map, Function.comp]
  rw [h1, hround, h2, h3, hsum]

/-- Witness for the amended C4: net charge 12 = base 10 + one 2.00 fuel
surcharge. -/
theorem c4_total_consistent_response_witness :
    (toShippingRate 0 plainOptions c4WitnessDetail c4WitnessRs 12 0).totalCost =
      (toShippingRate 0 plainOptions c4WitnessDetail c4WitnessRs 12 0).baseRate +
      (((toShippingRate 0 plainOptions c4WitnessDetail c4WitnessRs 12 0).additionalFees.map
        Fee.amount).sum) :=
  c4_total_consistent_response 0 plainOptions c4WitnessDetail c4WitnessRs 12 10 0
    rfl (by norm_num [c4WitnessRs])
    (by rw [show (12 : ℚ) = ((12 : ℤ) : ℚ) by norm_num, round2_intCast])

/-- C5 as stated is false: for a fresh adapter (no cached token) and an
envelope request over the 0.5 kg limit, `callFedExAPI` issues the
authentication token request first and raises the descriptive business error
only afterwards, so the error is not raised before every network call. -/
theorem c5_counterexample :
    callFedExAPIEvents none 0 c5Request =
      ([NetEvent.tokenRequest], some ⟨envelopeLimitMessage 1⟩) ∧
    (callFedExAPIEvents none 0 c5Request).1 ≠ [] := by
  have hkg : weightInKg c5Request.package.weight = 1 := by
    simp [weightInKg, c5Request, c5Package]
  have hover : ENVELOPE_MAX_KG < weightInKg c5Request.package.weight := by
    rw [hkg]
    norm_num [ENVELOPE_MAX_KG]
  have henv : c5Request.package.type = PackageType.envelope := rfl
  have hover1 : ENVELOPE_MAX_KG < (1 : ℚ) := by norm_num [ENVELOPE_MAX_KG]
  have hmain : callFedExAPIEvents none 0 c5Request =
      ([NetEvent.tokenRequest], some ⟨envelopeLimitMessage 1⟩) := by
    simp [callFedExAPIEvents, getPackagingType, tokenCacheValid, henv, hover1, hkg]
  refine ⟨hmain, ?_⟩
  rw [hmain]
  simp

/-- C5 (amended): when the envelope weight limit is exceeded the adapter
raises the descriptive business error before the rate request is issued (no
rate-endpoint event occurs), but after `getAccessToken` — the token request
is still issued when no valid cached token exists. -/
theorem c5_limit_error_before_rate_request (cache : Option TokenCache) (now : ℤ)
    (request : RateRequest)
    (henv : request.package.type = PackageType.envelope)
    (hover : ENVELOPE_MAX_KG < weightInKg request.package.weight) :
    (callFedExAPIEvents cache now request).2 =
      some ⟨envelopeLimitMessage (weightInKg request.package.weight)⟩ ∧
    NetEvent.rateRequest ∉ (callFedExAPIEvents cache now request).1 := by
  have hpack : getPackagingType request.package.type request.package.weight =
      Except.error ⟨envelopeLimitMessage (weightInKg request.package.weight)⟩ := by
    simp [getPackagingType, henv, hover]
  cases hcv : tokenCacheValid cache now <;>
    simp [callFedExAPIEvents, hpack, hcv]

/-- Witness for the amended C5: a 1 kg envelope on a fresh adapter. -/
theorem c5_limit_error_before_rate_request_witness :
    (callFedExAPIEvents none 0 c5Request).2 =
      some ⟨envelopeLimitMessage (weightInKg c5Request.package.weight)⟩ ∧
    NetEvent.rateRequest ∉ (callFedExAPIEvents none 0 c5Request).1 := by
  have hkg : weightInKg c5Request.package.weight = 1 := by
    simp [weightInKg, c5Request, c5Package]
  exact c5_limit_error_before_rate_request none 0 c5Request rfl
    (by rw [hkg]; norm_num [ENVELOPE_MAX_KG])

/-- C6 as stated is false: the FedEx adapter's `fetchRates` itself filters by
the requested speed — for a response containing an overnight and a standard
tier and a request for the overnight tier, `fetchRates` drops the standard
quote instead of returning all tiers found. -/
theorem c6_counterexample :
    adaptFedExResponse 0 c6Resp c6Opts =
      Except.ok [c6QuoteOvernight, c6QuoteGround] ∧
    c6QuoteOvernight.speed = ServiceSpeed.overnight ∧
    c6QuoteGround.speed = ServiceSpeed.standard ∧
    fetchRatesFromResponse 0 c6Resp c6Opts = Except.ok [c6QuoteOvernight] :=
  ⟨rfl, rfl, rfl, rfl⟩

/-- C6 (amended): the service-speed filter is applied inside the adapter's
`fetchRates` (all normalized tiers pass only when the requested speed is
`all`), while the orchestrator merges the adapter results without any speed
filtering of its own. -/
theorem c6_speed_filter_in_adapter (now : ℤ) (resp : FedExRateResponse)
    (options : ShippingOptions) (rates : List ShippingRate)
    (h : adaptFedExResponse now resp options = Except.ok rates) :
    fetchRatesFromResponse now resp options =
      Except.ok (rates.filter (fun r =>
        decide (options.speed = ServiceSpeed.all) ||
        decide (r.speed = options.speed))) ∧
    ∀ (adapters : AdapterRegistry) (requestId : String) (ts : ℤ)
      (request : RateRequest),
      (fetchAllRates adapters requestId ts request).rates.Perm
        (((targetCarriers request).map (fun c =>
          match (fetchCarrierRate adapters c).result with
          | Except.ok rs => rs
          | Except.error _ => [])).flatten) := by
  constructor
  · unfold fetchRatesFromResponse
    rw [h]
    by_cases hs : options.speed = ServiceSpeed.all
    · simp [hs]
    · simp [hs]
  · intro adapters requestId ts request
    have hr : (fetchAllRates adapters requestId ts request).rates =
        sortRates ((((targetCarriers request).map (fun c =>
          (c, (fetchCarrierRate adapters c).result))).foldr
            (fun p acc => match p.2 with
              | Except.ok rs => rs ++ acc
              | Except.error _ => acc) [])) := rfl
    rw [hr, collectRates_eq]
    exact sortRates_perm _

/-- Witness for the amended C6 at the concrete two-tier response. -/
theorem c6_speed_filter_in_adapter_witness :
    fetchRatesFromResponse 0 c6Resp c6Opts =
      Except.ok ([c6QuoteOvernight, c6QuoteGround].filter (fun r =>
        decide (c6Opts.speed = ServiceSpeed.all) ||
        decide (r.speed = c6Opts.speed))) :=
  (c6_speed_filter_in_adapter 0 c6Resp c6Opts [c6QuoteOvernight, c6QuoteGround] rfl).1

/-- C7 as stated is false: a request with a present-but-empty allow-list is
aggregated against the empty carrier set (no quotes, no errors), not against
the default set — the same registry with an absent allow-list yields the
default FedEx quote. -/
theorem c7_counterexample :
    (fetchAllRates c7Registry "req-7" 0 c7RequestEmptyList).rates = [] ∧
    (fetchAllRates c7Registry "req-7" 0 c7RequestEmptyList).errors = [] ∧
    (fetchAllRates c7Registry "req-7" 0 c7RequestNoList).rates = [c7Quote] :=
  ⟨rfl, rfl, rfl⟩

/-- C7 (amended): the target carrier set equals the request's allow-list
whenever the list is present — including the empty list, which yields an
empty aggregation — and equals the default set [FedEx] only when the
allow-list is absent. -/
theorem c7_target_set (adapters : AdapterRegistry) (requestId : String) (now : ℤ)
    (request : RateRequest) :
    (request.carriersFilter = none →
      fetchAllRates adapters requestId now request =
        fetchAllRates adapters requestId now
          { request with carriersFilter := some ["FedEx"] }) ∧
    (request.carriersFilter = some [] →
      (fetchAllRates adapters requestId now request).rates = [] ∧
      (fetchAllRates adapters requestId now request).errors = []) := by
  constructor
  · intro h
    simp [fetchAllRates, targetCarriers, h]
  · intro h
    simp [fetchAllRates, targetCarriers, h, sortRates]

/-- Witness for the amended C7: an absent allow-list behaves like the
explicit default set. -/
theorem c7_target_set_witness :
    fetchAllRates c7Registry "req-7" 0 c7RequestNoList =
      fetchAllRates c7Registry "req-7" 0
        { c7RequestNoList with carriersFilter := some ["FedEx"] } :=
  (c7_target_set c7Registry "req-7" 0 c7RequestNoList).1 rfl
